import Mathlib

/-!
# Proxy-server resource builders of the backplane operator

A shallow embedding of `pkg/foundation/proxy_server.go`: the five builders
`OCMProxyServerDeployment`, `OCMProxyServerService`, `OCMProxyAPIService`,
`OCMClusterViewV1APIService` and `OCMClusterViewV1alpha1APIService`.

Modelling decisions.

* Go pointers and maps are references.  The two reference-typed arguments of
  the builders (`m *BackplaneConfig` and `overrides map[string]string`) are
  modelled as references into an explicit `Heap`: `none` is `nil`, `some a`
  is the address `a`.  A builder is a state-passing function on the heap
  that may stop with a `Panic`.
* A builder reads `m` several times and writes through it nowhere; the model
  reads the object behind `m` once (`deref`), at the first access.
* The resources that a builder returns are freshly built values; they are
  modelled as plain records.  Only the fields that the source sets are
  listed, every other field keeps its Go zero value and is left out.
* A Go `map[string]string` value is an association list read through
  `List.lookup`; `none` is the `nil` map.
* Helpers of the package that are not part of `proxy_server.go`
  (`defaultLabels`, `defaultTolerations`, `Image`, `ServiceAccount`,
  `utils.GetReplicaCount`, `utils.GetImagePullPolicy`, `utils.DistributePods`)
  are the fields of the parameter `Env`.
* The functions of `k8s.io/apimachinery` and of the Go standard library that
  the builders call are not part of the source either; each is modelled by a
  definition that says so.  Of `resource.ParseQuantity` the scanner, the
  suffix table and the `int64` path are modelled; its arbitrary-precision
  path is a parameter (`Env.decPath`).
* `&replicas` and `&mode` are pointers to fresh local variables; the records
  hold the values behind them (`some` of the value).
-/

namespace foundation

/-! ## Kubernetes data model (the fields the builders set) -/

/-- A Go `map[string]string` value: `none` is the nil map. -/
abbrev StringMap := Option (List (String × String))

/-- Embedded `metav1.TypeMeta`. -/
structure TypeMeta where
  Kind : String := ""
  APIVersion : String := ""
deriving DecidableEq, Repr

/-- The type `metav1.OwnerReference`; the two flags are `*bool` in Go. -/
structure OwnerReference where
  APIVersion : String := ""
  Kind : String := ""
  Name : String := ""
  UID : String := ""
  Controller : Option Bool := none
  BlockOwnerDeletion : Option Bool := none
deriving DecidableEq, Repr

/-- The type `metav1.ObjectMeta`. -/
structure ObjectMeta where
  Name : String := ""
  Namespace : String := ""
  UID : String := ""
  Labels : StringMap := none
  Annotations : StringMap := none
  OwnerReferences : List OwnerReference := []
deriving DecidableEq, Repr

/-- Modelled from the spec: the method `(*ObjectMeta).SetOwnerReferences` belongs
to `k8s.io/apimachinery`, which is not part of the source.  It overwrites the
list of owner references of the object. -/
def ObjectMeta.SetOwnerReferences (meta : ObjectMeta) (references : List OwnerReference) :
    ObjectMeta :=
  { meta with OwnerReferences := references }

/-- The custom resource `backplanev1alpha1.BackplaneConfig`.  Its `Spec` and
`Status` types are declared outside `proxy_server.go` and are type parameters. -/
structure BackplaneConfig (Spec Status : Type) extends TypeMeta, ObjectMeta where
  Spec : Spec
  Status : Status

/-- The discriminator `intstr.Type`. -/
inductive IntstrType where
  | Int
  | String
deriving DecidableEq, Repr

/-- The type `intstr.IntOrString`; the field `Typ` is the Go field `Type`. -/
structure IntOrString where
  Typ : IntstrType := IntstrType.Int
  IntVal : Int := 0
  StrVal : String := ""
deriving DecidableEq, Repr

/-- Conversion to `int32` (two's complement wrap-around). -/
def int32 (v : Int) : Int := (v + 2147483648) % 4294967296 - 2147483648

/-- Modelled from the spec: the constructor `intstr.FromInt` belongs to
`k8s.io/apimachinery`, which is not part of the source.  It gives the
`IntOrString` of type `Int` that holds `int32(val)`. -/
def FromInt (val : Int) : IntOrString :=
  { Typ := IntstrType.Int, IntVal := int32 val }

/-- The three quantity formats of `k8s.io/apimachinery/pkg/api/resource`. -/
inductive Format where
  | DecimalExponent
  | BinarySI
  | DecimalSI
deriving DecidableEq, Repr

/-- The type `resource.int64Amount`: the number `value * 10^scale`. -/
structure int64Amount where
  value : Int := 0
  scale : Int := 0
deriving DecidableEq, Repr

/-- The type `resource.Quantity` when it holds an `int64Amount` (`i`), the cached
canonical string (`s`) and the format.  `d` is the arbitrary-precision amount
(`unscaled * 10^(-scale)`), set only by the arbitrary-precision path. -/
structure Quantity where
  i : int64Amount := {}
  d : Option (Int × Int) := none
  s : String := ""
  Format : Format := Format.DecimalExponent
deriving DecidableEq, Repr

/-- The type `corev1.ResourceList`, a map from resource name to quantity. -/
abbrev ResourceList := Option (List (String × Quantity))

/-- The type `corev1.ResourceRequirements`. -/
structure ResourceRequirements where
  Limits : ResourceList := none
  Requests : ResourceList := none
deriving DecidableEq, Repr

/-- The type `corev1.HTTPGetAction`. -/
structure HTTPGetAction where
  Path : String := ""
  Port : IntOrString := {}
  Scheme : String := ""
deriving DecidableEq, Repr

/-- The type `corev1.Handler`. -/
structure Handler where
  HTTPGet : Option HTTPGetAction := none
deriving DecidableEq, Repr

/-- The type `corev1.Probe`. -/
structure Probe where
  Handler : Handler := {}
  InitialDelaySeconds : Int := 0
  PeriodSeconds : Int := 0
deriving DecidableEq, Repr

/-- The type `corev1.VolumeMount`. -/
structure VolumeMount where
  Name : String := ""
  MountPath : String := ""
deriving DecidableEq, Repr

/-- The type `corev1.SecretVolumeSource`; `DefaultMode` is `*int32`. -/
structure SecretVolumeSource where
  SecretName : String := ""
  DefaultMode : Option Int := none
deriving DecidableEq, Repr

/-- The type `corev1.VolumeSource`. -/
structure VolumeSource where
  Secret : Option SecretVolumeSource := none
deriving DecidableEq, Repr

/-- The type `corev1.Volume`. -/
structure Volume where
  Name : String := ""
  VolumeSource : VolumeSource := {}
deriving DecidableEq, Repr

/-- The type `corev1.Toleration`. -/
structure Toleration where
  Key : String := ""
  Operator : String := ""
  Value : String := ""
  Effect : String := ""
  TolerationSeconds : Option Int := none
deriving DecidableEq, Repr

/-- The type `corev1.Container`. -/
structure Container where
  Name : String := ""
  Image : String := ""
  ImagePullPolicy : String := ""
  Args : List String := []
  LivenessProbe : Option Probe := none
  ReadinessProbe : Option Probe := none
  Resources : ResourceRequirements := {}
  VolumeMounts : List VolumeMount := []
deriving DecidableEq, Repr

/-- The type `corev1.PodSpec`.  `Affinity` stands for `*corev1.Affinity`, which
only the helper `utils.DistributePods` builds. -/
structure PodSpec (Affinity : Type) where
  ServiceAccountName : String := ""
  Tolerations : List Toleration := []
  Affinity : Affinity
  Volumes : List Volume := []
  Containers : List Container := []

/-- The type `corev1.PodTemplateSpec`. -/
structure PodTemplateSpec (Affinity : Type) where
  ObjectMeta : ObjectMeta := {}
  Spec : PodSpec Affinity

/-- The type `metav1.LabelSelector`. -/
structure LabelSelector where
  MatchLabels : StringMap := none
deriving DecidableEq, Repr

/-- The type `appsv1.DeploymentSpec`; `Replicas` is `*int32`. -/
structure DeploymentSpec (Affinity : Type) where
  Replicas : Option Int := none
  Selector : Option LabelSelector := none
  Template : PodTemplateSpec Affinity

/-- The type `appsv1.Deployment`. -/
structure Deployment (Affinity : Type) extends TypeMeta, ObjectMeta where
  Spec : DeploymentSpec Affinity

/-- The type `corev1.ServicePort`. -/
structure ServicePort where
  Name : String := ""
  Protocol : String := ""
  Port : Int := 0
  TargetPort : IntOrString := {}
deriving DecidableEq, Repr

/-- The type `corev1.ServiceSpec`. -/
structure ServiceSpec where
  Selector : StringMap := none
  Ports : List ServicePort := []
deriving DecidableEq, Repr

/-- The type `corev1.Service`. -/
structure Service extends TypeMeta, ObjectMeta where
  Spec : ServiceSpec := {}
deriving DecidableEq, Repr

/-- The type `apiregistrationv1.ServiceReference`. -/
structure ServiceReference where
  Namespace : String := ""
  Name : String := ""
deriving DecidableEq, Repr

/-- The type `apiregistrationv1.APIServiceSpec`. -/
structure APIServiceSpec where
  Service : Option ServiceReference := none
  Group : String := ""
  Version : String := ""
  GroupPriorityMinimum : Int := 0
  VersionPriority : Int := 0
deriving DecidableEq, Repr

/-- The type `apiregistrationv1.APIService`. -/
structure APIService extends TypeMeta, ObjectMeta where
  Spec : APIServiceSpec := {}
deriving DecidableEq, Repr

/-- The constant `corev1.URISchemeHTTPS`. -/
def URISchemeHTTPS : String := "HTTPS"

/-- The constant `corev1.ProtocolTCP`. -/
def ProtocolTCP : String := "TCP"

/-- The constant `corev1.ResourceCPU`. -/
def ResourceCPU : String := "cpu"

/-- The constant `corev1.ResourceMemory`. -/
def ResourceMemory : String := "memory"

/-! ## Library functions of `k8s.io/apimachinery` used by the builders -/

/-- The type `schema.GroupVersion`. -/
structure GroupVersion where
  Group : String := ""
  Version : String := ""
deriving DecidableEq, Repr

/-- The type `schema.GroupVersionKind`. -/
structure GroupVersionKind where
  Group : String := ""
  Version : String := ""
  Kind : String := ""
deriving DecidableEq, Repr

/-- Modelled from the spec: `schema.ParseGroupVersion` belongs to
`k8s.io/apimachinery`, which is not part of the source.  The empty string and
`/` give the empty group-version, a string without a slash is a version, a
string with one slash is `group/version`, anything else is an error (`none`). -/
def ParseGroupVersion (gv : String) : Option GroupVersion :=
  if gv.data.isEmpty || gv = "/" then some {}
  else
    match gv.data.count '/' with
    | 0 => some { Group := "", Version := gv }
    | 1 =>
      some { Group := String.mk (gv.data.takeWhile (fun c => c != '/')),
             Version := String.mk ((gv.data.dropWhile (fun c => c != '/')).drop 1) }
    | _ => none

/-- Modelled from the spec: `schema.FromAPIVersionAndKind` belongs to
`k8s.io/apimachinery`, which is not part of the source.  It parses the API
version and attaches the kind; an unparsable API version leaves only the kind. -/
def FromAPIVersionAndKind (apiVersion kind : String) : GroupVersionKind :=
  match ParseGroupVersion apiVersion with
  | some gv => { Group := gv.Group, Version := gv.Version, Kind := kind }
  | none => { Kind := kind }

/-- Modelled from the spec: the method `GroupVersionKind.GroupVersion` of
`k8s.io/apimachinery`, not part of the source: group and version without the
kind. -/
def GroupVersionKind.GroupVersion (gvk : GroupVersionKind) : GroupVersion :=
  { Group := gvk.Group, Version := gvk.Version }

/-- Modelled from the spec: the method `GroupVersion.String` of
`k8s.io/apimachinery`, not part of the source: `group/version`, or the
version alone when the group is empty. -/
def GroupVersion.String (gv : GroupVersion) : String :=
  if gv.Group.data.length > 0 then gv.Group ++ "/" ++ gv.Version else gv.Version

/-- Modelled from the spec: the call `m.GetObjectKind().GroupVersionKind()`, two
methods of `k8s.io/apimachinery`, not part of the source: the embedded
`TypeMeta` is the object kind, and its group-version-kind is read off its two
fields. -/
def TypeMeta.GroupVersionKind (t : TypeMeta) : GroupVersionKind :=
  FromAPIVersionAndKind t.APIVersion t.Kind

/-- Modelled from the spec: `metav1.NewControllerRef` belongs to
`k8s.io/apimachinery`, which is not part of the source.  The owner reference
links to the owner by name and UID, carries the API version and kind of the
given group-version-kind, and has both `Controller` and `BlockOwnerDeletion`
pointing at `true`. -/
def NewControllerRef (owner : ObjectMeta) (gvk : GroupVersionKind) : OwnerReference :=
  { APIVersion := gvk.GroupVersion.String
    Kind := gvk.Kind
    Name := owner.Name
    UID := owner.UID
    BlockOwnerDeletion := some true
    Controller := some true }

/-- The errors of `resource.ParseQuantity`. -/
inductive QuantityError where
  | ErrFormatWrong
  | ErrNumeric
  | ErrSuffix
deriving DecidableEq, Repr

/-- The six results of `resource.parseQuantityString` (all but the error). -/
structure ScannedQuantity where
  positive : Bool
  value : List Char
  num : List Char
  denom : List Char
  suffix : List Char
deriving DecidableEq, Repr

/-- The letters that may start a suffix, as tested by the scanner. -/
def suffixLetters : List Char := "eEinumkKMGTP".data

/-- Modelled from the spec: the last two loops of `resource.parseQuantityString`
(`k8s.io/apimachinery`, not part of the source).  `rest` is the input from the
suffix start on: suffix letters, then an optional sign, then digits up to the
end of the input; anything left over is a format error. -/
def scanSuffix (rest : List Char) : Except QuantityError (List Char) :=
  let afterLetters := rest.dropWhile (fun c => suffixLetters.contains c)
  if afterLetters.isEmpty then Except.ok rest
  else
    let afterSign :=
      match afterLetters with
      | c :: r => if c = '-' ∨ c = '+' then r else afterLetters
      | [] => afterLetters
    if (afterSign.dropWhile Char.isDigit).isEmpty then Except.ok rest
    else Except.error QuantityError.ErrFormatWrong

/-- Modelled from the spec: the scanner `resource.parseQuantityString`
(`k8s.io/apimachinery`, not part of the source), on the characters of the
input: leading sign, leading zeros, numerator digits, an optional `.` with
denominator digits, and the suffix. -/
def parseQuantityString (str : List Char) : Except QuantityError ScannedQuantity :=
  let positive : Bool :=
    match str with
    | c :: _ => !(c = '-')
    | [] => true
  let afterSign :=
    match str with
    | c :: r => if c = '-' ∨ c = '+' then r else str
    | [] => str
  let afterZeros := afterSign.dropWhile (fun c => c = '0')
  if afterZeros.isEmpty then
    Except.ok { positive := positive, value := ['0'], num := ['0'], denom := [], suffix := [] }
  else
    let digits := afterZeros.takeWhile Char.isDigit
    let afterNum := afterZeros.dropWhile Char.isDigit
    if afterNum.isEmpty then
      Except.ok { positive := positive, value := str, num := digits, denom := [], suffix := [] }
    else
      let num := if digits.isEmpty then ['0'] else digits
      match afterNum with
      | '.' :: r =>
        let denom := r.takeWhile Char.isDigit
        let afterDenom := r.dropWhile Char.isDigit
        if afterDenom.isEmpty then
          Except.ok { positive := positive, value := str, num := num, denom := denom, suffix := [] }
        else
          match scanSuffix afterDenom with
          | Except.ok suffix =>
            Except.ok { positive := positive, value := str.take (str.length - afterDenom.length),
                        num := num, denom := denom, suffix := suffix }
          | Except.error e => Except.error e
      | _ =>
        match scanSuffix afterNum with
        | Except.ok suffix =>
          Except.ok { positive := positive, value := str.take (str.length - afterNum.length),
                      num := num, denom := [], suffix := suffix }
        | Except.error e => Except.error e

/-- The decimal SI suffixes of the quantity suffixer with their exponents of ten. -/
def decSuffixes : List (String × Int) :=
  [("n", -9), ("u", -6), ("m", -3), ("", 0), ("k", 3), ("M", 6), ("G", 9), ("T", 12),
   ("P", 15), ("E", 18)]

/-- The binary SI suffixes of the quantity suffixer with their exponents of two. -/
def binSuffixes : List (String × Int) :=
  [("Ki", 10), ("Mi", 20), ("Gi", 30), ("Ti", 40), ("Pi", 50), ("Ei", 60)]

/-- Modelled from the spec: `strconv.ParseInt(s, 10, 64)` of the Go standard
library, not part of the source: an optional sign and at least one decimal
digit, in the range of `int64`. -/
def ParseInt (s : List Char) : Option Int :=
  let negative : Bool :=
    match s with
    | c :: _ => c = '-'
    | [] => false
  let digits :=
    match s with
    | c :: r => if c = '-' ∨ c = '+' then r else s
    | [] => s
  if digits.isEmpty || !(digits.all Char.isDigit) then none
  else
    let n : Int := ((digits.foldl (fun acc c => 10 * acc + (c.toNat - 48)) 0 : Nat) : Int)
    let v : Int := if negative then -n else n
    if -9223372036854775808 ≤ v ∧ v ≤ 9223372036854775807 then some v else none

/-- Modelled from the spec: `suffixHandler.interpret` of
`k8s.io/apimachinery/pkg/api/resource`, not part of the source: base, exponent
and format of a suffix; `none` when the suffix is unknown. -/
def interpret (suffix : List Char) : Option (Int × Int × Format) :=
  match decSuffixes.lookup (String.mk suffix) with
  | some e => some (10, e, Format.DecimalSI)
  | none =>
    match binSuffixes.lookup (String.mk suffix) with
    | some e => some (2, e, Format.BinarySI)
    | none =>
      match suffix with
      | c :: r =>
        if r.length > 0 ∧ (c = 'E' ∨ c = 'e') then
          match ParseInt r with
          | some parsed => some (10, int32 parsed, Format.DecimalExponent)
          | none => none
        else none
      | [] => none

/-- Modelled from the spec: `resource.int64Multiply`, not part of the source: the
product when it fits into an `int64`. -/
def int64Multiply (a b : Int) : Option Int :=
  if -9223372036854775808 ≤ a * b ∧ a * b ≤ 9223372036854775807 then some (a * b) else none

/-- The arbitrary-precision path of `resource.ParseQuantity` (`inf.Dec`), which
the scanner reaches when the fast `int64` path does not apply.  It is not part
of the source and is a parameter: the scanned input, base, exponent and format
go in, a quantity or an error comes out. -/
abbrev DecPath := ScannedQuantity → Int → Int → Format → Except QuantityError Quantity

/-- Modelled from the spec: `resource.ParseQuantity` of
`k8s.io/apimachinery`, not part of the source.  Empty input is a format
error, `0` is the zero quantity; otherwise the input is scanned, the suffix
interpreted, and a number with at most 18 digits (15 for a binary suffix)
and scale at least nano is held as an `int64Amount`. -/
def ParseQuantity (decPath : DecPath) (str : String) : Except QuantityError Quantity :=
  if str.data.length = 0 then Except.error QuantityError.ErrFormatWrong
  else if str = "0" then Except.ok { i := {}, Format := Format.DecimalSI, s := str }
  else
    match parseQuantityString str.data with
    | Except.error e => Except.error e
    | Except.ok sc =>
      match interpret sc.suffix with
      | none => Except.error QuantityError.ErrSuffix
      | some (base, exponent, format) =>
        let digitCount : Int := ((sc.num.length + sc.denom.length : Nat) : Int)
        let fastBinary : Bool := decide (0 ≤ exponent) && sc.denom.isEmpty
        let scale : Int :=
          match format with
          | Format.BinarySI => 0
          | _ => exponent
        let mantissa : Int :=
          match format with
          | Format.BinarySI => if fastBinary then 2 ^ exponent.toNat else 1
          | _ => 1
        let precision : Int :=
          match format with
          | Format.BinarySI =>
            if fastBinary then 15 - (sc.num.length : Int) - exponent * 3 / 10 - 1 else -1
          | _ => 18 - digitCount
        let scale := scale - (sc.denom.length : Int)
        let shifted := sc.num ++ sc.denom
        if 0 ≤ precision ∧ -9 ≤ scale then
          match ParseInt shifted with
          | none => Except.error QuantityError.ErrNumeric
          | some value =>
            match int64Multiply value mantissa with
            | none => decPath sc base exponent format
            | some product =>
              let result : Int := if sc.positive then product else -product
              let canonical : Bool :=
                match format with
                | Format.BinarySI => decide (exponent % 10 = 0) && decide (value % 8 ≠ 0)
                | _ =>
                  decide (scale % 3 = 0) && !(shifted.reverse.take 3 = ['0', '0', '0'])
                    && !(shifted.head? = some '0')
              Except.ok { i := { value := result, scale := scale }, Format := format,
                          s := if canonical then str else "" }
        else decPath sc base exponent format

/-- A Go panic raised while a builder runs. -/
inductive Panic where
  | nilPointerDereference
  | cannotParse (str : String) (err : QuantityError)
deriving DecidableEq, Repr

/-- Modelled from the spec: `resource.MustParse` of `k8s.io/apimachinery`, not
part of the source: the parsed quantity, or a panic when the string does not
parse. -/
def MustParse (decPath : DecPath) (str : String) : Except Panic Quantity :=
  match ParseQuantity decPath str with
  | Except.ok q => Except.ok q
  | Except.error err => Except.error (Panic.cannotParse str err)

/-! ## Heap, panics and the helpers of the package -/

/-- The part of the Go heap that the builders can reach through their
arguments: the configuration objects behind `*BackplaneConfig` pointers and
the contents of the `map[string]string` values, both by address. -/
structure Heap (Spec Status : Type) where
  configs : Nat → BackplaneConfig Spec Status
  maps : Nat → List (String × String)

/-- A Go computation: it runs on the heap and either panics or returns a value
together with the heap it leaves behind. -/
abbrev Go (Spec Status : Type) (α : Type) : Type := StateT (Heap Spec Status) (Except Panic) α

/-- Reading through a `*BackplaneConfig` (as in `m.Namespace`): dereferencing the
nil pointer panics. -/
def deref {Spec Status : Type} (m : Option Nat) : Go Spec Status (BackplaneConfig Spec Status) :=
  fun h =>
    match m with
    | none => Except.error Panic.nilPointerDereference
    | some a => Except.ok (h.configs a, h)

/-- The contents of a `map[string]string` argument: the nil map has none. -/
def mapValue {Spec Status : Type} (r : Option Nat) : Go Spec Status StringMap :=
  fun h => Except.ok (r.map h.maps, h)

/-- The declarations that `proxy_server.go` uses and that live in other files:
the helpers of package `foundation` and of `pkg/utils`, and the
arbitrary-precision path of the quantity parser.  The spec calls the helpers
simple field-copy utilities without side effects; each is a function of the
values it is handed. -/
structure Env (Spec Status Affinity : Type) where
  /-- The constant `ServiceAccount` of package `foundation`. -/
  ServiceAccount : String
  /-- The helper `defaultLabels(app)`. -/
  defaultLabels : String → StringMap
  /-- The helper `defaultTolerations()`. -/
  defaultTolerations : List Toleration
  /-- The helper `Image(overrides)`, applied to the contents of the map. -/
  Image : StringMap → String
  /-- The helper `utils.GetReplicaCount()`. -/
  GetReplicaCount : Int
  /-- The helper `utils.GetImagePullPolicy(m)`, applied to the object behind `m`. -/
  GetImagePullPolicy : BackplaneConfig Spec Status → String
  /-- The helper `utils.DistributePods(key, value)`. -/
  DistributePods : String → String → Affinity
  /-- The arbitrary-precision path of `resource.ParseQuantity`. -/
  decPath : DecPath

/-! ## The builders of `proxy_server.go` -/

/-- OCMProxyServerName is the name of the ocm proxy server deployment. -/
def OCMProxyServerName : String := "ocm-proxyserver"

/-- The constant `KlusterletSecretName`. -/
def KlusterletSecretName : String := "ocm-klusterlet-self-signed-secrets"

/-- The constant `OCMProxyAPIServiceName`. -/
def OCMProxyAPIServiceName : String := "v1beta1.proxy.open-cluster-management.io"

/-- The constant `OCMClusterViewV1APIServiceName`. -/
def OCMClusterViewV1APIServiceName : String := "v1.clusterview.open-cluster-management.io"

/-- The constant `OCMClusterViewV1alpha1APIServiceName`. -/
def OCMClusterViewV1alpha1APIServiceName : String :=
  "v1alpha1.clusterview.open-cluster-management.io"

/-- The constant `OCMProxyGroup`. -/
def OCMProxyGroup : String := "proxy.open-cluster-management.io"

/-- The constant `OCMClusterViewGroup`. -/
def OCMClusterViewGroup : String := "clusterview.open-cluster-management.io"

/-- OCMProxyServerDeployment creates the deployment for the ocm proxy server. -/
def OCMProxyServerDeployment {Spec Status Affinity : Type} (env : Env Spec Status Affinity)
    (m : Option Nat) (overrides : Option Nat) : Go Spec Status (Deployment Affinity) := do
  let replicas := env.GetReplicaCount
  let mode : Int := int32 420
  let cfg ← deref m
  let image := env.Image (← mapValue overrides)
  let cpuRequest ← liftM (MustParse env.decPath "100m")
  let memoryRequest ← liftM (MustParse env.decPath "256Mi")
  let memoryLimit ← liftM (MustParse env.decPath "2048Mi")
  let dep : Deployment Affinity :=
    { toObjectMeta :=
        { Name := OCMProxyServerName
          Namespace := cfg.Namespace
          Labels := env.defaultLabels OCMProxyServerName }
      Spec :=
        { Replicas := some replicas
          Selector := some { MatchLabels := env.defaultLabels OCMProxyServerName }
          Template :=
            { ObjectMeta := { Labels := env.defaultLabels OCMProxyServerName }
              Spec :=
                { ServiceAccountName := env.ServiceAccount
                  Tolerations := env.defaultTolerations
                  Affinity := env.DistributePods "ocm-antiaffinity-selector" OCMProxyServerName
                  Volumes :=
                    [ { Name := "klusterlet-certs"
                        VolumeSource :=
                          { Secret := some { DefaultMode := some mode,
                                             SecretName := KlusterletSecretName } } },
                      { Name := "apiservice-certs"
                        VolumeSource :=
                          { Secret := some { DefaultMode := some mode,
                                             SecretName := OCMProxyServerName } } } ]
                  Containers :=
                    [ { Image := image
                        ImagePullPolicy := env.GetImagePullPolicy cfg
                        Name := OCMProxyServerName
                        Args :=
                          [ "/proxyserver",
                            "--secure-port=6443",
                            "--tls-cert-file=/var/run/apiservice/tls.crt",
                            "--tls-private-key-file=/var/run/apiservice/tls.key",
                            "--agent-cafile=/var/run/klusterlet/ca.crt",
                            "--agent-certfile=/var/run/klusterlet/tls.crt",
                            "--agent-keyfile=/var/run/klusterlet/tls.key" ]
                        LivenessProbe := some
                          { Handler :=
                              { HTTPGet := some
                                  { Path := "/healthz"
                                    Port := FromInt 6443
                                    Scheme := URISchemeHTTPS } }
                            InitialDelaySeconds := 2
                            PeriodSeconds := 10 }
                        ReadinessProbe := some
                          { Handler :=
                              { HTTPGet := some
                                  { Path := "/healthz"
                                    Port := FromInt 6443
                                    Scheme := URISchemeHTTPS } }
                            InitialDelaySeconds := 2 }
                        Resources :=
                          { Requests := some
                              [ (ResourceCPU, cpuRequest),
                                (ResourceMemory, memoryRequest) ]
                            Limits := some
                              [ (ResourceMemory, memoryLimit) ] }
                        VolumeMounts :=
                          [ { Name := "klusterlet-certs", MountPath := "/var/run/klusterlet" },
                            { Name := "apiservice-certs", MountPath := "/var/run/apiservice" } ]
                      } ] } } } }
  let dep : Deployment Affinity :=
    { dep with
      toObjectMeta := dep.toObjectMeta.SetOwnerReferences
        [ NewControllerRef cfg.toObjectMeta cfg.toTypeMeta.GroupVersionKind ] }
  return dep

/-- OCMProxyServerService creates a service object for the ocm proxy server. -/
def OCMProxyServerService {Spec Status Affinity : Type} (env : Env Spec Status Affinity)
    (m : Option Nat) : Go Spec Status Service := do
  let cfg ← deref m
  let s : Service :=
    { toObjectMeta :=
        { Name := OCMProxyServerName
          Namespace := cfg.Namespace
          Labels := env.defaultLabels OCMProxyServerName
          Annotations := some
            [ ("service.beta.openshift.io/serving-cert-secret-name", OCMProxyServerName) ] }
      Spec :=
        { Selector := env.defaultLabels OCMProxyServerName
          Ports :=
            [ { Name := "secure"
                Protocol := ProtocolTCP
                Port := 443
                TargetPort := FromInt 6443 } ] } }
  let s : Service :=
    { s with
      toObjectMeta := s.toObjectMeta.SetOwnerReferences
        [ NewControllerRef cfg.toObjectMeta cfg.toTypeMeta.GroupVersionKind ] }
  return s

/-- OCMProxyAPIService creates an apiservice object for the ocm proxy api. -/
def OCMProxyAPIService {Spec Status : Type} (m : Option Nat) : Go Spec Status APIService := do
  let cfg ← deref m
  let s : APIService :=
    { toObjectMeta :=
        { Name := OCMProxyAPIServiceName
          Annotations := some [ ("service.beta.openshift.io/inject-cabundle", "true") ] }
      Spec :=
        { Service := some { Namespace := cfg.Namespace, Name := OCMProxyServerName }
          Group := OCMProxyGroup
          Version := "v1beta1"
          GroupPriorityMinimum := 10000
          VersionPriority := 20 } }
  return s

/-- OCMClusterViewV1APIService creates an apiservice object for the ocm clusterview api v1. -/
def OCMClusterViewV1APIService {Spec Status : Type} (m : Option Nat) :
    Go Spec Status APIService := do
  let cfg ← deref m
  let s : APIService :=
    { toObjectMeta :=
        { Name := OCMClusterViewV1APIServiceName
          Annotations := some [ ("service.beta.openshift.io/inject-cabundle", "true") ] }
      Spec :=
        { Service := some { Namespace := cfg.Namespace, Name := OCMProxyServerName }
          Group := OCMClusterViewGroup
          Version := "v1"
          GroupPriorityMinimum := 10
          VersionPriority := 20 } }
  return s

/-- OCMClusterViewV1alpha1APIService creates an apiservice object for the ocm clusterview
api V1alpha1. -/
def OCMClusterViewV1alpha1APIService {Spec Status : Type} (m : Option Nat) :
    Go Spec Status APIService := do
  let cfg ← deref m
  let s : APIService :=
    { toObjectMeta :=
        { Name := OCMClusterViewV1alpha1APIServiceName
          Annotations := some [ ("service.beta.openshift.io/inject-cabundle", "true") ] }
      Spec :=
        { Service := some { Namespace := cfg.Namespace, Name := OCMProxyServerName }
          Group := OCMClusterViewGroup
          Version := "v1alpha1"
          GroupPriorityMinimum := 10
          VersionPriority := 20 } }
  return s

/-! ## Notions used to state the properties -/

/-- Running one builder twice in a row, the second call on the heap that the
first call left behind. -/
def twice {Spec Status α : Type} (builder : Go Spec Status α) : Go Spec Status (α × α) := do
  let first ← builder
  let second ← builder
  return (first, second)

/-- Reading a key of a Go map value: the first binding of the key; a nil map
has no keys. -/
def lookupKey (m : StringMap) (key : String) : Option String :=
  match m with
  | none => none
  | some entries => entries.lookup key

/-- Equality-based label selection, as Kubernetes applies a set of selector
labels to the labels of an object (`labels.SelectorFromSet`): every key of
the selector is present in the labels with the value the selector gives it;
a selector without keys selects every object. -/
def selects (selector labels : StringMap) : Bool :=
  match selector with
  | none => true
  | some entries => entries.all (fun kv => lookupKey labels kv.1 == entries.lookup kv.1)

/-- The characters of `flag` that follow `start`, when `flag` begins with `start`. -/
def dropLeading : List Char → List Char → Option (List Char)
  | [], rest => some rest
  | _ :: _, [] => none
  | c :: cs, x :: xs => if c = x then dropLeading cs xs else none

/-- The value of the command-line argument `name=value` in an argument list. -/
def flagValue (name : String) (args : List String) : Option String :=
  args.findSome? (fun arg => (dropLeading (name.data ++ ['=']) arg.data).map String.mk)

/-- The number written by a non-empty string of decimal digits. -/
def portNumber (value : String) : Option Int :=
  if value.data.isEmpty || !(value.data.all Char.isDigit) then none
  else some ((value.data.foldl (fun acc c => 10 * acc + (c.toNat - 48)) 0 : Nat) : Int)

/-- The file `path` lies directly under the directory `dir`: it is `dir`, a
slash, and a non-empty file name without a slash. -/
def directlyUnder (dir path : String) : Bool :=
  match dropLeading dir.data path.data with
  | some ('/' :: base) => !base.isEmpty && !base.contains '/'
  | _ => false

/-- The mount path of the volume mount with the given name. -/
def mountPathOf (name : String) (mounts : List VolumeMount) : Option String :=
  (mounts.find? (fun vm => vm.Name = name)).map (fun vm => vm.MountPath)

/-- The name of the secret behind the volume with the given name. -/
def secretOfVolume (name : String) (volumes : List Volume) : Option String :=
  ((volumes.find? (fun v => v.Name = name)).bind (fun v => v.VolumeSource.Secret)).map
    (fun sec => sec.SecretName)

/-- A configuration object used to instantiate the properties: the
`BackplaneConfig` named `backplane` in namespace `backplane-system`. -/
def sampleConfig : BackplaneConfig Unit Unit :=
  { Kind := "BackplaneConfig"
    APIVersion := "backplane.open-cluster-management.io/v1alpha1"
    Name := "backplane"
    Namespace := "backplane-system"
    UID := "7d9c1c52"
    Spec := ()
    Status := () }

/-- A second configuration object in the same namespace as `sampleConfig`, with
another name, UID and labels. -/
def otherConfig : BackplaneConfig Unit Unit :=
  { Kind := "BackplaneConfig"
    APIVersion := "backplane.open-cluster-management.io/v1alpha1"
    Name := "other"
    Namespace := "backplane-system"
    UID := "0a41f3e8"
    Labels := some [("tier", "test")]
    Spec := ()
    Status := () }

/-- A heap holding `sampleConfig` at address 0 and `otherConfig` elsewhere; all
maps are empty. -/
def sampleHeap : Heap Unit Unit :=
  { configs := fun a => if a = 0 then sampleConfig else otherConfig
    maps := fun _ => [] }

/-- A choice of helpers used to instantiate the properties. -/
def sampleEnv : Env Unit Unit Unit :=
  { ServiceAccount := "ocm-foundation-sa"
    defaultLabels := fun app => some [("app", app)]
    defaultTolerations := []
    Image := fun overrides => (lookupKey overrides "ocm_proxyserver").getD ""
    GetReplicaCount := 1
    GetImagePullPolicy := fun _ => "IfNotPresent"
    DistributePods := fun _ _ => ()
    decPath := fun _ _ _ _ => Except.error QuantityError.ErrNumeric }

/-! ## Properties -/

/-- C1: for every configuration `m` (the object at any address `a` of any heap)
and every overrides map, the Deployment and the Service are returned, both are
named `ocm-proxyserver` (the constant `OCMProxyServerName`) and live in the
namespace of `m`, and the Deployment has a single container, also named
`ocm-proxyserver`. -/
theorem C1_name_and_namespace {Spec Status Affinity : Type} (env : Env Spec Status Affinity)
    (h : Heap Spec Status) (a : Nat) (overrides : Option Nat) :
    ∃ (d : Deployment Affinity) (s : Service) (c : Container),
      (OCMProxyServerDeployment env (some a) overrides).run h = Except.ok (d, h) ∧
      (OCMProxyServerService env (some a)).run h = Except.ok (s, h) ∧
      OCMProxyServerName = "ocm-proxyserver" ∧
      d.Name = "ocm-proxyserver" ∧ d.Namespace = (h.configs a).Namespace ∧
      s.Name = "ocm-proxyserver" ∧ s.Namespace = (h.configs a).Namespace ∧
      d.Spec.Template.Spec.Containers = [c] ∧ c.Name = "ocm-proxyserver" :=
  ⟨_, _, _, rfl, rfl, rfl, rfl, rfl, rfl, rfl, rfl, rfl⟩

/-- C2: for every configuration `m`, the Deployment and the Service each carry
exactly one owner reference, the controller reference to `m`: name and UID of
`m`, API version and kind of the group-version-kind of `m`, and both the
`Controller` and the `BlockOwnerDeletion` flag set to true. -/
theorem C2_owner_reference {Spec Status Affinity : Type} (env : Env Spec Status Affinity)
    (h : Heap Spec Status) (a : Nat) (overrides : Option Nat) :
    ∃ (d : Deployment Affinity) (s : Service) (ref : OwnerReference),
      (OCMProxyServerDeployment env (some a) overrides).run h = Except.ok (d, h) ∧
      (OCMProxyServerService env (some a)).run h = Except.ok (s, h) ∧
      d.OwnerReferences = [ref] ∧ s.OwnerReferences = [ref] ∧
      ref = NewControllerRef (h.configs a).toObjectMeta (h.configs a).toTypeMeta.GroupVersionKind ∧
      ref.Name = (h.configs a).Name ∧ ref.UID = (h.configs a).UID ∧
      ref.APIVersion = (h.configs a).toTypeMeta.GroupVersionKind.GroupVersion.String ∧
      ref.Kind = (h.configs a).toTypeMeta.GroupVersionKind.Kind ∧
      ref.Controller = some true ∧ ref.BlockOwnerDeletion = some true :=
  ⟨_, _, _, rfl, rfl, rfl, rfl, rfl, rfl, rfl, rfl, rfl, rfl, rfl⟩

/-- C3: construction is total.  For every non-nil `m` and every overrides map
(nil, empty or not) each of the five builders returns a resource and no panic;
the three quantity literals handed to `MustParse` parse on the `int64` path,
whatever the arbitrary-precision path would do, so `MustParse` does not
panic. -/
theorem C3_construction_total {Spec Status Affinity : Type} (env : Env Spec Status Affinity)
    (h : Heap Spec Status) (a : Nat) (overrides : Option Nat) :
    (∃ d : Deployment Affinity,
      (OCMProxyServerDeployment env (some a) overrides).run h = Except.ok (d, h)) ∧
    (∃ s : Service, (OCMProxyServerService env (some a)).run h = Except.ok (s, h)) ∧
    (∃ s : APIService, (OCMProxyAPIService (some a)).run h = Except.ok (s, h)) ∧
    (∃ s : APIService, (OCMClusterViewV1APIService (some a)).run h = Except.ok (s, h)) ∧
    (∃ s : APIService, (OCMClusterViewV1alpha1APIService (some a)).run h = Except.ok (s, h)) ∧
    (∀ decPath : DecPath, ∃ cpu memory limit : Quantity,
      MustParse decPath "100m" = Except.ok cpu ∧
      cpu.i = { value := 100, scale := -3 } ∧ cpu.Format = Format.DecimalSI ∧
      MustParse decPath "256Mi" = Except.ok memory ∧
      memory.i = { value := 268435456, scale := 0 } ∧ memory.Format = Format.BinarySI ∧
      MustParse decPath "2048Mi" = Except.ok limit ∧
      limit.i = { value := 2147483648, scale := 0 } ∧ limit.Format = Format.BinarySI) :=
  ⟨⟨_, rfl⟩, ⟨_, rfl⟩, ⟨_, rfl⟩, ⟨_, rfl⟩, ⟨_, rfl⟩,
   fun _ => ⟨_, _, _, rfl, rfl, rfl, rfl, rfl, rfl, rfl, rfl, rfl⟩⟩

/-- C4: the builders leave their inputs alone.  Each of the five builders
returns on the very heap it started from, so the configuration behind `m`
(namespace, metadata and spec included) and the contents of the overrides
map are what they were before the call; and two calls in a row return equal
resource descriptions. -/
theorem C4_inputs_unchanged {Spec Status Affinity : Type} (env : Env Spec Status Affinity)
    (h : Heap Spec Status) (a : Nat) (overrides : Option Nat) :
    (∃ (d : Deployment Affinity) (after : Heap Spec Status),
      (OCMProxyServerDeployment env (some a) overrides).run h = Except.ok (d, after) ∧
      after = h ∧ after.configs a = h.configs a ∧
      overrides.map after.maps = overrides.map h.maps ∧
      (twice (OCMProxyServerDeployment env (some a) overrides)).run h
        = Except.ok ((d, d), h)) ∧
    (∃ (s : Service) (after : Heap Spec Status),
      (OCMProxyServerService env (some a)).run h = Except.ok (s, after) ∧
      after = h ∧ after.configs a = h.configs a ∧
      overrides.map after.maps = overrides.map h.maps ∧
      (twice (OCMProxyServerService env (some a))).run h = Except.ok ((s, s), h)) ∧
    (∃ (s : APIService) (after : Heap Spec Status),
      (OCMProxyAPIService (some a)).run h = Except.ok (s, after) ∧
      after = h ∧ after.configs a = h.configs a ∧
      overrides.map after.maps = overrides.map h.maps ∧
      (twice (OCMProxyAPIService (some a))).run h = Except.ok ((s, s), h)) ∧
    (∃ (s : APIService) (after : Heap Spec Status),
      (OCMClusterViewV1APIService (some a)).run h = Except.ok (s, after) ∧
      after = h ∧ after.configs a = h.configs a ∧
      overrides.map after.maps = overrides.map h.maps ∧
      (twice (OCMClusterViewV1APIService (some a))).run h = Except.ok ((s, s), h)) ∧
    (∃ (s : APIService) (after : Heap Spec Status),
      (OCMClusterViewV1alpha1APIService (some a)).run h = Except.ok (s, after) ∧
      after = h ∧ after.configs a = h.configs a ∧
      overrides.map after.maps = overrides.map h.maps ∧
      (twice (OCMClusterViewV1alpha1APIService (some a))).run h = Except.ok ((s, s), h)) :=
  ⟨⟨_, _, rfl, rfl, rfl, rfl, rfl⟩, ⟨_, _, rfl, rfl, rfl, rfl, rfl⟩,
   ⟨_, _, rfl, rfl, rfl, rfl, rfl⟩, ⟨_, _, rfl, rfl, rfl, rfl, rfl⟩,
   ⟨_, _, rfl, rfl, rfl, rfl, rfl⟩⟩

/-- C5: each APIService builder registers its documented API: group
`proxy.open-cluster-management.io` with version `v1beta1`, group
`clusterview.open-cluster-management.io` with versions `v1` and `v1alpha1`;
the metadata name is the version, a dot, and the group; the three names are
pairwise distinct. -/
theorem C5_apiservice_identity {Spec Status : Type} (h : Heap Spec Status) (a : Nat) :
    ∃ (proxy v1 v1alpha1 : APIService),
      (OCMProxyAPIService (some a)).run h = Except.ok (proxy, h) ∧
      (OCMClusterViewV1APIService (some a)).run h = Except.ok (v1, h) ∧
      (OCMClusterViewV1alpha1APIService (some a)).run h = Except.ok (v1alpha1, h) ∧
      proxy.Spec.Group = "proxy.open-cluster-management.io" ∧ proxy.Spec.Version = "v1beta1" ∧
      v1.Spec.Group = "clusterview.open-cluster-management.io" ∧ v1.Spec.Version = "v1" ∧
      v1alpha1.Spec.Group = "clusterview.open-cluster-management.io" ∧
      v1alpha1.Spec.Version = "v1alpha1" ∧
      proxy.Name = proxy.Spec.Version ++ "." ++ proxy.Spec.Group ∧
      v1.Name = v1.Spec.Version ++ "." ++ v1.Spec.Group ∧
      v1alpha1.Name = v1alpha1.Spec.Version ++ "." ++ v1alpha1.Spec.Group ∧
      proxy.Name ≠ v1.Name ∧ proxy.Name ≠ v1alpha1.Name ∧ v1.Name ≠ v1alpha1.Name := by
  refine ⟨_, _, _, rfl, rfl, rfl, rfl, rfl, rfl, rfl, rfl, rfl, ?_, ?_, ?_, ?_, ?_, ?_⟩ <;>
    dsimp only <;> decide

/-- C6: the service reference of each of the three APIService registrations
names the Service that `OCMProxyServerService` builds for the same `m` (same
name, same namespace, the namespace of `m`); and a second configuration with
the same namespace yields the same three APIService objects. -/
theorem C6_service_reference {Spec Status Affinity : Type} (env : Env Spec Status Affinity)
    (h : Heap Spec Status) (a : Nat) (h2 : Heap Spec Status) (a2 : Nat)
    (sameNamespace : (h2.configs a2).Namespace = (h.configs a).Namespace) :
    ∃ (svc : Service) (proxy v1 v1alpha1 : APIService) (ref : ServiceReference),
      (OCMProxyServerService env (some a)).run h = Except.ok (svc, h) ∧
      (OCMProxyAPIService (some a)).run h = Except.ok (proxy, h) ∧
      (OCMClusterViewV1APIService (some a)).run h = Except.ok (v1, h) ∧
      (OCMClusterViewV1alpha1APIService (some a)).run h = Except.ok (v1alpha1, h) ∧
      proxy.Spec.Service = some ref ∧ v1.Spec.Service = some ref ∧
      v1alpha1.Spec.Service = some ref ∧
      ref.Name = svc.Name ∧ ref.Namespace = svc.Namespace ∧
      svc.Namespace = (h.configs a).Namespace ∧
      (OCMProxyAPIService (some a2)).run h2 = Except.ok (proxy, h2) ∧
      (OCMClusterViewV1APIService (some a2)).run h2 = Except.ok (v1, h2) ∧
      (OCMClusterViewV1alpha1APIService (some a2)).run h2 = Except.ok (v1alpha1, h2) := by
  refine ⟨_, _, _, _, _, rfl, rfl, rfl, rfl, rfl, rfl, rfl, rfl, rfl, rfl, ?_, ?_, ?_⟩
  · show Except.ok (_, h2) = _
    rw [sameNamespace]
  · show Except.ok (_, h2) = _
    rw [sameNamespace]
  · show Except.ok (_, h2) = _
    rw [sameNamespace]

/-- The three builders of C6 at two different configuration objects of one
namespace: `sampleConfig` and `otherConfig` give the same APIService objects. -/
theorem C6_service_reference_witness :
    (sampleHeap.configs 1).Namespace = (sampleHeap.configs 0).Namespace ∧
    ∃ (svc : Service) (proxy v1 v1alpha1 : APIService) (ref : ServiceReference),
      (OCMProxyServerService sampleEnv (some 0)).run sampleHeap = Except.ok (svc, sampleHeap) ∧
      (OCMProxyAPIService (some 0)).run sampleHeap = Except.ok (proxy, sampleHeap) ∧
      (OCMClusterViewV1APIService (some 0)).run sampleHeap = Except.ok (v1, sampleHeap) ∧
      (OCMClusterViewV1alpha1APIService (some 0)).run sampleHeap
        = Except.ok (v1alpha1, sampleHeap) ∧
      proxy.Spec.Service = some ref ∧ v1.Spec.Service = some ref ∧
      v1alpha1.Spec.Service = some ref ∧
      ref.Name = svc.Name ∧ ref.Namespace = svc.Namespace ∧
      svc.Namespace = (sampleHeap.configs 0).Namespace ∧
      (OCMProxyAPIService (some 1)).run sampleHeap = Except.ok (proxy, sampleHeap) ∧
      (OCMClusterViewV1APIService (some 1)).run sampleHeap = Except.ok (v1, sampleHeap) ∧
      (OCMClusterViewV1alpha1APIService (some 1)).run sampleHeap
        = Except.ok (v1alpha1, sampleHeap) :=
  ⟨rfl, C6_service_reference sampleEnv sampleHeap 0 sampleHeap 1 rfl⟩

/-- A set of selector labels selects every object that carries exactly these
labels. -/
theorem selects_self (labels : StringMap) : selects labels labels = true := by
  cases labels with
  | none => rfl
  | some entries => simp [selects, lookupKey]

/-- C7: the label sets agree.  The labels of the Deployment, the match labels
of its selector, the labels of its pod template and the selector of the
Service are all `defaultLabels("ocm-proxyserver")`; hence the selector of the
Deployment selects its own pod template, and the Service selects a set of
labels exactly when the selector of the Deployment does. -/
theorem C7_labels_consistent {Spec Status Affinity : Type} (env : Env Spec Status Affinity)
    (h : Heap Spec Status) (a : Nat) (overrides : Option Nat) :
    ∃ (d : Deployment Affinity) (s : Service) (selector : LabelSelector),
      (OCMProxyServerDeployment env (some a) overrides).run h = Except.ok (d, h) ∧
      (OCMProxyServerService env (some a)).run h = Except.ok (s, h) ∧
      d.Spec.Selector = some selector ∧
      selector.MatchLabels = env.defaultLabels "ocm-proxyserver" ∧
      d.Spec.Template.ObjectMeta.Labels = env.defaultLabels "ocm-proxyserver" ∧
      d.Labels = env.defaultLabels "ocm-proxyserver" ∧
      s.Spec.Selector = env.defaultLabels "ocm-proxyserver" ∧
      selects selector.MatchLabels d.Spec.Template.ObjectMeta.Labels = true ∧
      selects s.Spec.Selector d.Spec.Template.ObjectMeta.Labels = true ∧
      ∀ podLabels : StringMap,
        selects s.Spec.Selector podLabels = selects selector.MatchLabels podLabels :=
  ⟨_, _, _, rfl, rfl, rfl, rfl, rfl, rfl, rfl, selects_self _, selects_self _, fun _ => rfl⟩

/-- C8: volume mounts and volumes of the Deployment correspond one to one by
name: every mount of the single container names a declared volume, every
declared volume is mounted exactly once, volume names are pairwise distinct,
mount paths are pairwise distinct, and every volume is a secret volume with
default mode 420, which is octal 0644. -/
theorem C8_volumes_and_mounts {Spec Status Affinity : Type} (env : Env Spec Status Affinity)
    (h : Heap Spec Status) (a : Nat) (overrides : Option Nat) :
    ∃ (d : Deployment Affinity) (c : Container),
      (OCMProxyServerDeployment env (some a) overrides).run h = Except.ok (d, h) ∧
      d.Spec.Template.Spec.Containers = [c] ∧
      (∀ vm ∈ c.VolumeMounts, ∃ v ∈ d.Spec.Template.Spec.Volumes, v.Name = vm.Name) ∧
      (∀ v ∈ d.Spec.Template.Spec.Volumes,
        (c.VolumeMounts.filter (fun vm => vm.Name = v.Name)).length = 1) ∧
      (d.Spec.Template.Spec.Volumes.map (fun v => v.Name)).Nodup ∧
      (c.VolumeMounts.map (fun vm => vm.MountPath)).Nodup ∧
      (∀ v ∈ d.Spec.Template.Spec.Volumes,
        ∃ sec, v.VolumeSource.Secret = some sec ∧ sec.DefaultMode = some 420 ∧
          sec.DefaultMode = some 0o644) := by
  refine ⟨_, _, rfl, rfl, ?_, ?_, ?_, ?_, ?_⟩
  · dsimp only; decide
  · dsimp only; decide
  · dsimp only; decide
  · dsimp only; decide
  · dsimp only
    intro v hv
    simp only [List.mem_cons, List.mem_singleton, List.not_mem_nil, or_false] at hv
    rcases hv with rfl | rfl
    · exact ⟨_, rfl, rfl, rfl⟩
    · exact ⟨_, rfl, rfl, rfl⟩

/-- C9: the port wiring agrees.  The container argument `--secure-port=6443`
gives port 6443; the liveness and the readiness probe are HTTPS GETs of
`/healthz` on that port; the Service has a single port, TCP, named `secure`,
exposed as 443, whose target port is that same port. -/
theorem C9_port_wiring {Spec Status Affinity : Type} (env : Env Spec Status Affinity)
    (h : Heap Spec Status) (a : Nat) (overrides : Option Nat) :
    ∃ (d : Deployment Affinity) (c : Container) (s : Service) (live ready : HTTPGetAction)
      (servicePort : ServicePort) (port : Int),
      (OCMProxyServerDeployment env (some a) overrides).run h = Except.ok (d, h) ∧
      (OCMProxyServerService env (some a)).run h = Except.ok (s, h) ∧
      d.Spec.Template.Spec.Containers = [c] ∧
      "--secure-port=6443" ∈ c.Args ∧
      flagValue "--secure-port" c.Args = some "6443" ∧
      portNumber "6443" = some port ∧ port = 6443 ∧
      c.LivenessProbe.bind (fun p => p.Handler.HTTPGet) = some live ∧
      c.ReadinessProbe.bind (fun p => p.Handler.HTTPGet) = some ready ∧
      live.Path = "/healthz" ∧ live.Scheme = URISchemeHTTPS ∧ URISchemeHTTPS = "HTTPS" ∧
      live.Port = FromInt port ∧ live.Port.Typ = IntstrType.Int ∧ live.Port.IntVal = port ∧
      ready.Path = "/healthz" ∧ ready.Scheme = URISchemeHTTPS ∧
      ready.Port = FromInt port ∧ ready.Port.Typ = IntstrType.Int ∧ ready.Port.IntVal = port ∧
      s.Spec.Ports = [servicePort] ∧
      servicePort.Name = "secure" ∧ servicePort.Protocol = ProtocolTCP ∧ ProtocolTCP = "TCP" ∧
      servicePort.Port = 443 ∧
      servicePort.TargetPort = FromInt port ∧ servicePort.TargetPort.Typ = IntstrType.Int ∧
      servicePort.TargetPort.IntVal = port := by
  refine ⟨_, _, _, _, _, _, 6443, rfl, rfl, rfl, ?_, ?_, ?_, rfl, rfl, rfl, rfl, rfl, rfl,
    rfl, rfl, ?_, rfl, rfl, rfl, rfl, ?_, rfl, rfl, rfl, rfl, rfl, rfl, rfl, ?_⟩
  · dsimp only; decide
  · dsimp only; decide
  · decide
  · decide
  · decide
  · decide

/-- C10: the certificate wiring agrees.  The secret named by the Service
annotation `service.beta.openshift.io/serving-cert-secret-name` backs the
`apiservice-certs` volume of the Deployment; the two `--tls-*` files lie
directly under the mount path of the `apiservice-certs` mount and the three
`--agent-*` files directly under the mount path of the `klusterlet-certs`
mount of the container. -/
theorem C10_certificate_wiring {Spec Status Affinity : Type} (env : Env Spec Status Affinity)
    (h : Heap Spec Status) (a : Nat) (overrides : Option Nat) :
    ∃ (d : Deployment Affinity) (c : Container) (s : Service) (secret : String)
      (apiserviceDir klusterletDir tlsCert tlsKey agentCA agentCert agentKey : String),
      (OCMProxyServerDeployment env (some a) overrides).run h = Except.ok (d, h) ∧
      (OCMProxyServerService env (some a)).run h = Except.ok (s, h) ∧
      d.Spec.Template.Spec.Containers = [c] ∧
      lookupKey s.Annotations "service.beta.openshift.io/serving-cert-secret-name"
        = some secret ∧
      secretOfVolume "apiservice-certs" d.Spec.Template.Spec.Volumes = some secret ∧
      mountPathOf "apiservice-certs" c.VolumeMounts = some apiserviceDir ∧
      mountPathOf "klusterlet-certs" c.VolumeMounts = some klusterletDir ∧
      flagValue "--tls-cert-file" c.Args = some tlsCert ∧
      flagValue "--tls-private-key-file" c.Args = some tlsKey ∧
      flagValue "--agent-cafile" c.Args = some agentCA ∧
      flagValue "--agent-certfile" c.Args = some agentCert ∧
      flagValue "--agent-keyfile" c.Args = some agentKey ∧
      directlyUnder apiserviceDir tlsCert = true ∧
      directlyUnder apiserviceDir tlsKey = true ∧
      directlyUnder klusterletDir agentCA = true ∧
      directlyUnder klusterletDir agentCert = true ∧
      directlyUnder klusterletDir agentKey = true := by
  refine ⟨_, _, _, "ocm-proxyserver", "/var/run/apiservice", "/var/run/klusterlet",
    "/var/run/apiservice/tls.crt", "/var/run/apiservice/tls.key", "/var/run/klusterlet/ca.crt",
    "/var/run/klusterlet/tls.crt", "/var/run/klusterlet/tls.key",
    rfl, rfl, rfl, ?_, ?_, ?_, ?_, ?_, ?_, ?_, ?_, ?_, ?_, ?_, ?_, ?_, ?_⟩ <;>
    dsimp only [ObjectMeta.SetOwnerReferences] <;> decide

/-- The builders dereference `m`: on the nil pointer each of them panics. -/
theorem nil_config_panics {Spec Status Affinity : Type} (env : Env Spec Status Affinity)
    (h : Heap Spec Status) (overrides : Option Nat) :
    (OCMProxyServerDeployment env none overrides).run h
      = Except.error Panic.nilPointerDereference ∧
    (OCMProxyServerService env none).run h = Except.error Panic.nilPointerDereference ∧
    (OCMProxyAPIService none).run h = Except.error Panic.nilPointerDereference ∧
    (OCMClusterViewV1APIService none).run h = Except.error Panic.nilPointerDereference ∧
    (OCMClusterViewV1alpha1APIService none).run h
      = Except.error Panic.nilPointerDereference :=
  ⟨rfl, rfl, rfl, rfl, rfl⟩

end foundation
